import Mathlib

/-!
# Verification of the playwright-plus-python-mcp session and event-capture core

Shallow embedding of `src/playwright_server` (server.py, handlers/base_handler.py,
handlers/console_log_handler.py, handlers/network_handler.py,
handlers/session_initializer.py) and proofs about it.

Python dictionaries are modelled as insertion-ordered association lists
(`List (String × α)`): inserting a missing key appends at the end, inserting an
existing key overwrites in place.  Python exceptions are modelled by `Except`
values: a function returning `.error msg` models a body that raises.  A Python
`bytes` object is a `List Nat` of byte values; `bytes.decode("utf-8")` is the
strict UTF-8 decoder `pyDecodeUtf8` defined below.
-/

namespace PlaywrightServer

/-- Insertion-ordered dictionary write, `d[k] = v`: an existing key keeps its
position and gets the new value, a fresh key is appended at the end (CPython
dict semantics). -/
def dictInsert [DecidableEq κ] (k : κ) (v : α) : List (κ × α) → List (κ × α)
  | [] => [(k, v)]
  | (k', v') :: rest =>
    if k' = k then (k, v) :: rest else (k', v') :: dictInsert k v rest

/-- Dictionary read, `d.get(k)`. -/
def dictGet? [DecidableEq κ] (k : κ) : List (κ × α) → Option α
  | [] => none
  | (k', v') :: rest => if k' = k then some v' else dictGet? k rest

/-- Dictionary read with default, `d.get(k, dflt)`. -/
def dictGetD [DecidableEq κ] (k : κ) (dflt : α) (d : List (κ × α)) : α :=
  (dictGet? k d).getD dflt

/-- Python list slice `l[s:]` (arbitrary integer start index). -/
def pySliceFrom (s : Int) (l : List α) : List α :=
  let n : Int := l.length
  let start : Int := if s < 0 then max (n + s) 0 else min s n
  l.drop start.toNat

/-- Contiguous-sublist test on lists of characters. -/
def listContainsSub (n : List Char) : List Char → Bool
  | [] => n.isEmpty
  | c :: rest => n.isPrefixOf (c :: rest) || listContainsSub n rest

/-- Python substring test `needle in hay` on strings. -/
def strIncludes (needle hay : String) : Bool :=
  listContainsSub needle.toList hay.toList

/-- Python truthiness of an optional string argument (`if x:`): `None` and the
empty string are falsy. -/
def strTruthy : Option String → Bool
  | none => false
  | some s => s ≠ ""

/-! ## Sessions (base_handler.py, server.py)

A session value is the dict `{"browser": browser, "page": page}` built at
server.py line 228; browser and page handles are opaque numeric identifiers
handed out by the driver. -/

structure Session where
  browser : Nat
  page : Nat
  deriving DecidableEq, Repr

/-- The `BaseToolHandler._sessions` class attribute: a Python dict from session
id to session, modelled as an insertion-ordered association list. -/
abbrev Sessions := List (String × Session)

/-- `BaseToolHandler._get_active_session` (base_handler.py lines 22-29):
raises `ValueError` when the mapping is empty (the f-string interpolates the
then-necessarily-empty dict, whose repr is `{}`), otherwise returns the last
key of the mapping together with its value. -/
def get_active_session (sessions : Sessions) : Except String (String × Session) :=
  if sessions.isEmpty then
    .error "No active browser session(self._sessions=\x7b\x7d). Please create a new session first."
  else
    match sessions.getLast? with
    | none => .error "IndexError: list index out of range"
    | some (sid, _) =>
      match dictGet? sid sessions with
      | none => .error "KeyError"
      | some s => .ok (sid, s)

/-- The session-registration step of `NewSessionToolHandler.handle`
(server.py line 228): `self._sessions[session_id] = {"browser": ..., "page": ...}`. -/
def createSession (sid : String) (s : Session) (sessions : Sessions) : Sessions :=
  dictInsert sid s sessions

/-- A whole sequence of session creations starting from the empty mapping. -/
def createAll (cs : List (String × Session)) : Sessions :=
  cs.foldl (fun acc kv => createSession kv.1 kv.2 acc) []

/-- The dict built by `handle_console` (console_log_handler.py lines 19-28). -/
structure ConsoleLogEntry where
  type : String
  text : String
  locationUrl : String
  lineNumber : Option Int
  columnNumber : Option Int
  timestamp : String
  deriving DecidableEq, Repr

/-- Arguments accepted by `playwright_get_console_logs`. -/
structure ConsoleArgs where
  type : Option String := none
  limit : Option Int := none
  deriving Repr

/-- The filter/limit portion of `ConsoleLogHandler.handle`
(console_log_handler.py lines 50-59): optional type filter (Python truthiness:
`None` and `""` skip the filter), then `logs[-limit:]` with default limit 100. -/
def queryConsoleLogs (args : Option ConsoleArgs) (logs : List ConsoleLogEntry) :
    List ConsoleLogEntry :=
  let log_type : Option String := match args with
    | some a => a.type
    | none => none
  let logs := match log_type with
    | some t => if t ≠ "" then logs.filter (fun l => l.type == t) else logs
    | none => logs
  let limit : Int := match args with
    | some a => a.limit.getD 100
    | none => 100
  pySliceFrom (-limit) logs

/-- The filter predicate (as a single conjunction) that `queryConsoleLogs`
implements stage-wise. -/
def consoleLogMatches (a : ConsoleArgs) (l : ConsoleLogEntry) : Bool :=
  match a.type with
  | some t => if t ≠ "" then l.type == t else true
  | none => true

/-! ## Network events and the network query (network_handler.py) -/

/-- The dict built by `handle_request` (network_handler.py lines 28-42);
the five response fields start as `None` and are patched by `handle_response`. -/
structure NetworkEvent where
  id : Nat
  url : String
  method : String
  headers : List (String × String)
  post_data : Option String
  resource_type : String
  timestamp : String
  status : Option Int := none
  status_text : Option String := none
  response_headers : Option (List (String × String)) := none
  response_size : Option Nat := none
  response_body : Option String := none
  deriving DecidableEq, Repr

/-- Arguments accepted by `playwright_get_network_activity`. -/
structure NetworkArgs where
  url : Option String := none
  method : Option String := none
  status_min : Option Int := none
  status_max : Option Int := none
  resource_type : Option String := none
  limit : Option Int := none
  show_headers : Bool := false
  show_body : Bool := false
  deriving Repr

/-- The comprehension predicate at network_handler.py line 124:
`e["status"] is not None and e["status"] >= status_min`. -/
def statusAtLeast (m : Int) (e : NetworkEvent) : Bool :=
  match e.status with
  | some s => m ≤ s
  | none => false

/-- The comprehension predicate at network_handler.py line 128:
`e["status"] is not None and e["status"] <= status_max`. -/
def statusAtMost (m : Int) (e : NetworkEvent) : Bool :=
  match e.status with
  | some s => s ≤ m
  | none => false

/-- The filter cascade of `NetworkHandler.handle` (network_handler.py lines
110-133), applied in source order: url substring, method equality, status
lower bound, status upper bound, resource type.  String filters use Python
truthiness; the status bounds apply whenever the argument is not `None` and
drop events whose `status` is still `None`. -/
def applyNetworkFilters (a : NetworkArgs) (events : List NetworkEvent) :
    List NetworkEvent :=
  let events := match a.url with
    | some u => if u ≠ "" then events.filter (fun e => strIncludes u e.url) else events
    | none => events
  let events := match a.method with
    | some m => if m ≠ "" then events.filter (fun e => e.method == m) else events
    | none => events
  let events := match a.status_min with
    | some m => events.filter (statusAtLeast m)
    | none => events
  let events := match a.status_max with
    | some m => events.filter (statusAtMost m)
    | none => events
  let events := match a.resource_type with
    | some r => if r ≠ "" then events.filter (fun e => e.resource_type == r) else events
    | none => events
  events

/-- `NetworkHandler.handle`, query portion (lines 107-137): filter cascade,
then `events[-limit:]` with default limit 50. -/
def queryNetworkEvents (args : Option NetworkArgs) (events : List NetworkEvent) :
    List NetworkEvent :=
  let events := match args with
    | some a => applyNetworkFilters a events
    | none => events
  let limit : Int := match args with
    | some a => a.limit.getD 50
    | none => 50
  pySliceFrom (-limit) events

/-- The filter conjunction that `applyNetworkFilters` implements stage-wise. -/
def networkEventMatches (a : NetworkArgs) (e : NetworkEvent) : Bool :=
  ((((match a.url with
      | some u => if u ≠ "" then strIncludes u e.url else true
      | none => true) &&
     (match a.method with
      | some m => if m ≠ "" then e.method == m else true
      | none => true)) &&
    (match a.status_min with
     | some m => statusAtLeast m e
     | none => true)) &&
   (match a.status_max with
    | some m => statusAtMost m e
    | none => true)) &&
  (match a.resource_type with
   | some r => if r ≠ "" then e.resource_type == r else true
   | none => true)

/-- Is `b` a UTF-8 continuation byte (`0x80..0xBF`)? -/
def isUtf8Cont (b : Nat) : Bool := 0x80 ≤ b && b ≤ 0xBF

/-- Strict UTF-8 decoding of a byte list into code points. -/
def utf8DecodeList : List Nat → Option (List Char)
  | [] => some []
  | b :: rest =>
    if b ≤ 0x7F then
      (utf8DecodeList rest).map (fun cs => Char.ofNat b :: cs)
    else if 0xC2 ≤ b && b ≤ 0xDF then
      match rest with
      | b1 :: rest2 =>
        if isUtf8Cont b1 then
          (utf8DecodeList rest2).map
            (fun cs => Char.ofNat ((b - 0xC0) * 0x40 + (b1 - 0x80)) :: cs)
        else none
      | [] => none
    else if 0xE0 ≤ b && b ≤ 0xEF then
      match rest with
      | b1 :: b2 :: rest3 =>
        let ok1 : Bool :=
          if b = 0xE0 then 0xA0 ≤ b1 && b1 ≤ 0xBF
          else if b = 0xED then 0x80 ≤ b1 && b1 ≤ 0x9F
          else isUtf8Cont b1
        if ok1 && isUtf8Cont b2 then
          (utf8DecodeList rest3).map
            (fun cs => Char.ofNat ((b - 0xE0) * 0x1000 + (b1 - 0x80) * 0x40 + (b2 - 0x80)) :: cs)
        else none
      | _ => none
    else if 0xF0 ≤ b && b ≤ 0xF4 then
      match rest with
      | b1 :: b2 :: b3 :: rest4 =>
        let ok1 : Bool :=
          if b = 0xF0 then 0x90 ≤ b1 && b1 ≤ 0xBF
          else if b = 0xF4 then 0x80 ≤ b1 && b1 ≤ 0x8F
          else isUtf8Cont b1
        if ok1 && isUtf8Cont b2 && isUtf8Cont b3 then
          (utf8DecodeList rest4).map
            (fun cs => Char.ofNat ((b - 0xF0) * 0x40000 + (b1 - 0x80) * 0x1000 +
              (b2 - 0x80) * 0x40 + (b3 - 0x80)) :: cs)
        else none
      | _ => none
    else none

/-- `body.decode("utf-8")` under the strict error handler: `some` on success,
`none` when a `UnicodeDecodeError` would be raised. -/
def pyDecodeUtf8 (body : List Nat) : Option String :=
  (utf8DecodeList body).map (fun cs => String.mk cs)

/-! ## Browser-driver callback inputs

The playwright `Request`/`Response`/console-message objects as observed by the
listener callbacks.  Attribute reads that are `await`ed in the source
(`all_headers`, `post_data`, `body`, the in-page clock evaluation) can raise,
so they are modelled as `Except` results carried by the driver object. -/

structure PwRequest where
  /-- `id(request)`: the request's identity token. -/
  reqId : Nat
  url : String
  method : String
  resource_type : String
  /-- `await request.all_headers()`. -/
  headersResult : Except String (List (String × String))
  /-- `await request.post_data()`. -/
  postDataResult : Except String (Option String)

structure PwResponse where
  /-- `response.request`: identity used for matching. -/
  request : PwRequest
  status : Int
  status_text : String
  /-- `await response.all_headers()`. -/
  headersResult : Except String (List (String × String))
  /-- `await response.body()`: the raw bytes, or an exception for bodiless
  responses. -/
  bodyResult : Except String (List Nat)

structure PwConsoleMsg where
  type : String
  text : String
  /-- `msg.page.url`. -/
  pageUrl : String
  /-- `getattr(msg.location, "lineNumber", None)`. -/
  lineNumber : Option Int
  columnNumber : Option Int

/-- `NetworkHandler._network_events`: session id → event list. -/
abbrev NetworkBuckets := List (String × List NetworkEvent)

/-- `ConsoleLogHandler._console_logs`: session id → log list. -/
abbrev ConsoleBuckets := List (String × List ConsoleLogEntry)

/-! ## The event callbacks (console_log_handler.py, network_handler.py) -/

/-- `handle_console` (console_log_handler.py lines 18-29).  The body builds a
log entry — `await`ing an in-page clock expression for the timestamp — and
appends it to the session's bucket.  There is **no** try/except in this
callback: a failure of the clock evaluation (or a missing bucket) propagates
out of the callback. -/
def handle_console (clock : Except String String) (msg : PwConsoleMsg) (sid : String)
    (buckets : ConsoleBuckets) : Except String ConsoleBuckets :=
  match clock with
  | .error e => .error e
  | .ok ts =>
    let entry : ConsoleLogEntry :=
      { type := msg.type, text := msg.text, locationUrl := msg.pageUrl,
        lineNumber := msg.lineNumber, columnNumber := msg.columnNumber,
        timestamp := ts }
    match dictGet? sid buckets with
    | none => .error "KeyError"
    | some logs => .ok (dictInsert sid (logs ++ [entry]) buckets)

/-- The try-block body of `handle_request` (network_handler.py lines 18-44):
read headers (may raise), best-effort read of post data (inner try: failures
leave it `None`), build the pending event with the in-page timestamp (may
raise), append to the session's bucket (missing bucket raises `KeyError`). -/
def handle_request_body (clock : Except String String) (req : PwRequest) (sid : String)
    (buckets : NetworkBuckets) : Except String NetworkBuckets :=
  match req.headersResult with
  | .error e => .error e
  | .ok headers =>
    let post_data : Option String :=
      match req.postDataResult with
      | .ok p => p
      | .error _ => none
    match clock with
    | .error e => .error e
    | .ok ts =>
      let request_data : NetworkEvent :=
        { id := req.reqId, url := req.url, method := req.method,
          headers := headers, post_data := post_data,
          resource_type := req.resource_type, timestamp := ts }
      match dictGet? sid buckets with
      | none => .error "KeyError"
      | some es => .ok (dictInsert sid (es ++ [request_data]) buckets)

/-- `handle_request` (network_handler.py lines 16-47): the whole body is
wrapped in `try: ... except Exception: pass`, so any failure leaves the
buckets unchanged and nothing propagates. -/
def handle_request (clock : Except String String) (req : PwRequest) (sid : String)
    (buckets : NetworkBuckets) : Except String NetworkBuckets :=
  match handle_request_body clock req sid buckets with
  | .error _ => .ok buckets
  | .ok b => .ok b

/-- The parenthesized disjunction at network_handler.py lines 74-77:
`"json" in content_type or "text" in content_type or
"javascript" in content_type or "css" in content_type`. -/
def isTextualContentType (ct : String) : Bool :=
  strIncludes "json" ct || strIncludes "text" ct ||
  strIncludes "javascript" ct || strIncludes "css" ct

/-- The response patch applied to the matched event (network_handler.py lines
58-84): populate `status`/`status_text`/`response_headers`; then (inner try)
read the body — on success record its size and, when the content type is
textual (json/text/javascript/css substring) and the size is under the
10 KB (10240-byte) ceiling, store the UTF-8 decode of the body, swallowing
decode failures. -/
def updateEventWithResponse (resp : PwResponse) (headers : List (String × String))
    (e : NetworkEvent) : NetworkEvent :=
  let e := { e with status := some resp.status, status_text := some resp.status_text,
                    response_headers := some headers }
  match resp.bodyResult with
  | .error _ => e
  | .ok body =>
    let e := { e with response_size := some body.length }
    let content_type := dictGetD "content-type" "" headers
    if body.length < 10240 && isTextualContentType content_type then
      match pyDecodeUtf8 body with
      | some s => { e with response_body := some s }
      | none => e
    else e

/-- The `for event in self._network_events[session_id]` loop of
`handle_response` (lines 56-86): find the first event whose `id` equals the
response's request identity, patch it in place and `break`; events before and
after it are untouched.  Reading the response headers happens only once a
match is found and may raise (propagating out of the loop). -/
def respUpdateLoop (resp : PwResponse) : List NetworkEvent → Except String (List NetworkEvent)
  | [] => .ok []
  | e :: rest =>
    if e.id = resp.request.reqId then
      match resp.headersResult with
      | .error msg => .error msg
      | .ok headers => .ok (updateEventWithResponse resp headers e :: rest)
    else
      match respUpdateLoop resp rest with
      | .error msg => .error msg
      | .ok rest' => .ok (e :: rest')

/-- The try-block body of `handle_response` (lines 51-86): a missing session
bucket raises `KeyError`; otherwise run the matching loop. -/
def handle_response_body (resp : PwResponse) (sid : String)
    (buckets : NetworkBuckets) : Except String NetworkBuckets :=
  match dictGet? sid buckets with
  | none => .error "KeyError"
  | some es =>
    match respUpdateLoop resp es with
    | .error msg => .error msg
    | .ok es' => .ok (dictInsert sid es' buckets)

/-- `handle_response` (network_handler.py lines 49-89): the whole body is
wrapped in `try: ... except Exception: pass`, so any failure leaves the
buckets unchanged and nothing propagates. -/
def handle_response (resp : PwResponse) (sid : String)
    (buckets : NetworkBuckets) : Except String NetworkBuckets :=
  match handle_response_body resp sid buckets with
  | .error _ => .ok buckets
  | .ok b => .ok b

/-! ## Theorems about the callbacks -/

/-- Concrete sample data for the callback witnesses. -/
def sampleRequestA : PwRequest :=
  { reqId := 1, url := "https://a.example/x", method := "GET",
    resource_type := "document", headersResult := .ok [], postDataResult := .ok none }

def sampleRequestB : PwRequest :=
  { reqId := 2, url := "https://b.example/y", method := "POST",
    resource_type := "fetch", headersResult := .ok [], postDataResult := .ok none }

def sampleEventA : NetworkEvent :=
  { id := 1, url := "https://a.example/x", method := "GET", headers := [],
    post_data := none, resource_type := "document", timestamp := "t1" }

def sampleEventB : NetworkEvent :=
  { id := 2, url := "https://b.example/y", method := "POST", headers := [],
    post_data := none, resource_type := "fetch", timestamp := "t2" }

def sampleResponseB : PwResponse :=
  { request := sampleRequestB, status := 200, status_text := "OK",
    headersResult := .ok [("content-type", "application/json")],
    bodyResult := .ok [104, 105] }

structure PageState where
  /-- `hasattr(page, "_console_listener_added")` / its `setattr` marker. -/
  consoleListenerAdded : Bool := false
  /-- `hasattr(page, "_network_listener_added")` / its `setattr` marker. -/
  networkListenerAdded : Bool := false
  /-- Number of `page.on("console", ...)` subscriptions registered. -/
  consoleListeners : Nat := 0
  /-- Number of `page.on("request", ...)` subscriptions registered. -/
  requestListeners : Nat := 0
  /-- Number of `page.on("response", ...)` subscriptions registered. -/
  responseListeners : Nat := 0
  deriving DecidableEq, Repr

/-- The whole mutable server state: the session mapping and the two handler
class attributes, plus per-page attribute storage keyed by page handle. -/
structure ServerState where
  sessions : Sessions := []
  console_logs : ConsoleBuckets := []
  network_events : NetworkBuckets := []
  pages : List (Nat × PageState) := []
  deriving DecidableEq, Repr

/-- Attribute lookup on a page handle; a page never seen has no attributes. -/
def getPageState (h : Nat) (st : ServerState) : PageState :=
  (dictGet? h st.pages).getD {}

/-- `ConsoleLogHandler._setup_console_log_listener` (console_log_handler.py
lines 13-34): idempotently create the session's log bucket, then register the
console callback only when the page's `_console_listener_added` marker is
absent, and set the marker. -/
def setup_console_log_listener (sid : String) (pageH : Nat) (st : ServerState) :
    ServerState :=
  let st := if (dictGet? sid st.console_logs).isNone then
      { st with console_logs := dictInsert sid [] st.console_logs }
    else st
  let p := getPageState pageH st
  if p.consoleListenerAdded then st
  else
    let p2 : PageState :=
      { p with consoleListeners := p.consoleListeners + 1, consoleListenerAdded := true }
    { st with pages := dictInsert pageH p2 st.pages }

/-- `NetworkHandler._setup_network_listener` (network_handler.py lines 11-95):
idempotently create the session's event bucket, then register the request and
response callbacks only when the page's `_network_listener_added` marker is
absent, and set the marker. -/
def setup_network_listener (sid : String) (pageH : Nat) (st : ServerState) :
    ServerState :=
  let st := if (dictGet? sid st.network_events).isNone then
      { st with network_events := dictInsert sid [] st.network_events }
    else st
  let p := getPageState pageH st
  if p.networkListenerAdded then st
  else
    let p2 : PageState :=
      { p with requestListeners := p.requestListeners + 1,
               responseListeners := p.responseListeners + 1,
               networkListenerAdded := true }
    { st with pages := dictInsert pageH p2 st.pages }

/-- `SessionInitializer.initialize_session` (session_initializer.py lines
7-19): console listener setup, then network listener setup. -/
def initialize_session (sid : String) (pageH : Nat) (st : ServerState) :
    ServerState :=
  setup_network_listener sid pageH (setup_console_log_listener sid pageH st)

/-- One registered console subscription firing once: `handle_console` with a
successfully evaluated timestamp; a failure leaves the buckets unchanged
(the driver discards listener exceptions). -/
def deliverConsoleOnce (ts : String) (msg : PwConsoleMsg) (sid : String)
    (buckets : ConsoleBuckets) : ConsoleBuckets :=
  match handle_console (.ok ts) msg sid buckets with
  | .ok b => b
  | .error _ => buckets

/-- The driver delivering one console message to a page: every registered
console subscription runs `handle_console` once. -/
def dispatchConsole (ts : String) (msg : PwConsoleMsg) (sid : String)
    (pageH : Nat) (st : ServerState) : ServerState :=
  { st with console_logs :=
      ((deliverConsoleOnce ts msg sid)^[(getPageState pageH st).consoleListeners]
        st.console_logs) }

/-- A content item handed back to the protocol layer. -/
inductive Content
  | text (s : String)
  | image (data : String) (mimeType : String)
  deriving DecidableEq, Repr

abbrev HandlerResult := Except String (List Content × ServerState)

/-- Results of the browser-driver operations a tool call may perform. -/
structure Env where
  /-- `await async_playwright().start()` (server.py line 224). -/
  startResult : Except String Unit
  /-- `await self._playwright.chromium.launch(headless=False)` (line 225):
  the browser handle. -/
  launchResult : Except String Nat
  /-- `await browser.new_page()` (line 226): the page handle. -/
  newPageResult : Except String Nat
  /-- `str(uuid.uuid4())` (line 227). -/
  freshSessionId : String
  /-- `await page.goto(url)`, by target url. -/
  gotoResult : String → Except String Unit
  /-- The in-page evaluation of `GetTextContentToolHandler` (lines 323-346):
  the deduplicated visible text list computed by the injected script. -/
  uniqueTextsResult : Except String (List String)
  /-- `await page.evaluate(script)` (line 302), rendered with `str`. -/
  evaluateResult : Option String → Except String String
  /-- `await page.locator(selector).click()` (line 281). -/
  clickResult : Option String → Except String Unit
  /-- `await page.locator(f"text={text}").nth(0).click()` (line 313). -/
  clickTextResult : Option String → Except String Unit
  /-- `await page.locator(selector).fill(value)` (line 292). -/
  fillResult : Option String → Option String → Except String Unit
  /-- The screenshot/file/base64 round trip (lines 263-270): the base64 data. -/
  screenshotResult : Option String → Except String String
  /-- `await page.locator(selector).inner_html()` (line 360). -/
  innerHtmlResult : Option String → Except String String
  /-- The `wait_for_event("page", timeout=3000)` + `wait_for_load_state`
  outcome of the `update_page_after_click` decorator (lines 205-213): `some`
  when a new page appeared within the timeout and loaded, `none` otherwise. -/
  adoptedPage : Option Nat
  /-- `json.dumps(json.loads(body), indent=2)` (lines 170-172): `none` when
  parsing raises. -/
  jsonPretty : String → Option String

/-- The literal returned by every inline `if not self._sessions` guard. -/
def noSessionText : String := "No active session. Please create a new session first."

/-- `repr` of a Python string containing no quotes or backslashes
(as produced by f-string `=` interpolation). -/
def pyReprStr (s : String) : String := "'" ++ s ++ "'"

/-- `repr` of an `Optional[str]`. -/
def pyReprOptStr : Option String → String
  | none => "None"
  | some s => pyReprStr s

/-- `str` of an `Optional[str]` under plain f-string interpolation. -/
def pyStrOptStr : Option String → String
  | none => "None"
  | some s => s

/-- `str` of an `Optional[int]` under plain f-string interpolation. -/
def pyStrOptInt : Option Int → String
  | none => "None"
  | some i => toString i

/-- `str` of a Python list of strings (repr of each element). -/
def pyReprStrList (l : List String) : String :=
  "[" ++ String.intercalate ", " (l.map pyReprStr) ++ "]"

/-- `str` of an mcp content object (pydantic repr). -/
def pyReprContent : Content → String
  | .text s => "TextContent(type='text', text=" ++ pyReprStr s ++ ", annotations=None)"
  | .image d m =>
    "ImageContent(type='image', data=" ++ pyReprStr d ++ ", mimeType=" ++
      pyReprStr m ++ ", annotations=None)"

/-- `str` of a Python list of mcp content objects. -/
def pyReprContentList (l : List Content) : String :=
  "[" ++ String.intercalate ", " (l.map pyReprContent) ++ "]"

/-- Python list slice `l[:s]`. -/
def pySliceTo (s : Int) (l : List α) : List α :=
  let n : Int := l.length
  let stop : Int := if s < 0 then max (n + s) 0 else min s n
  l.take stop.toNat

/-- Python `s.startswith(pre)`. -/
def pyStartsWith (s pre : String) : Bool :=
  pre.toList.isPrefixOf s.toList

/-- The scheme normalization at server.py lines 235-236 and 248-249. -/
def normalizeUrl (url : String) : String :=
  if !(pyStartsWith url "http://") && !(pyStartsWith url "https://") then
    "https://" ++ url
  else url

/-- `NewSessionToolHandler.handle` (server.py lines 222-238): start driver,
launch browser, open page, register the session under a fresh id, run
`SessionInitializer.initialize_session`, then — only when the `url` argument
is truthy — normalize the scheme and navigate.  Driver failures propagate
(there is no try/except). -/
def new_session_handle (env : Env) (url? : Option String) (st : ServerState) :
    HandlerResult :=
  match env.startResult with
  | .error e => .error e
  | .ok _ =>
    match env.launchResult with
    | .error e => .error e
    | .ok browser =>
      match env.newPageResult with
      | .error e => .error e
      | .ok page =>
        let sid := env.freshSessionId
        let st := { st with sessions := dictInsert sid ⟨browser, page⟩ st.sessions }
        let st := initialize_session sid page st
        if strTruthy url? then
          let url := normalizeUrl (url?.getD "")
          match env.gotoResult url with
          | .error e => .error e
          | .ok _ =>
            .ok ([.text ("session_id=" ++ pyReprStr sid ++ " New session (url=" ++
              pyReprOptStr (some url) ++ ") created.(" ++
              toString st.sessions.length ++ ")")], st)
        else
          .ok ([.text ("session_id=" ++ pyReprStr sid ++ " New session (url=" ++
            pyReprOptStr url? ++ ") created.(" ++
            toString st.sessions.length ++ ")")], st)

/-- `GetTextContentToolHandler.handle` (server.py lines 316-351). -/
def get_text_content_handle (env : Env) (st : ServerState) : HandlerResult :=
  if st.sessions.isEmpty then .ok ([.text noSessionText], st)
  else
    match env.uniqueTextsResult with
    | .error e => .error e
    | .ok texts =>
      .ok ([.text ("Text content of all elements: " ++ pyReprStrList texts)], st)

/-- `NavigateToolHandler.handle` (server.py lines 240-252): create a session
implicitly when none exists, normalize the scheme, navigate, then fetch the
page text via `GetTextContentToolHandler` and return a message that
interpolates `text_content[:200]` — a slice of the one-element content
**list**, not of the text. -/
def navigate_handle (env : Env) (url? : Option String) (st : ServerState) :
    HandlerResult :=
  let step : Except String ServerState :=
    if st.sessions.isEmpty then
      match new_session_handle env none st with
      | .error e => .error e
      | .ok (_, st') => .ok st'
    else .ok st
  match step with
  | .error e => .error e
  | .ok st =>
    match st.sessions.getLast? with
    | none => .error "IndexError: list index out of range"
    | some (sid, _sess) =>
      match url? with
      | none => .error "AttributeError: 'NoneType' object has no attribute 'startswith'"
      | some url =>
        let url := normalizeUrl url
        match env.gotoResult url with
        | .error e => .error e
        | .ok _ =>
          match get_text_content_handle env st with
          | .error e => .error e
          | .ok (text_content, _) =>
            .ok ([.text ("session_id=" ++ pyReprStr sid ++ " Navigated to " ++ url ++
              "\npage_text_content[:200]:\n\n" ++
              pyReprContentList (pySliceTo 200 text_content))], st)

/-- `ScreenshotToolHandler.handle` (server.py lines 254-271). -/
def screenshot_handle (env : Env) (_name selector : Option String)
    (st : ServerState) : HandlerResult :=
  if st.sessions.isEmpty then .ok ([.text noSessionText], st)
  else
    match env.screenshotResult selector with
    | .error e => .error e
    | .ok data => .ok ([.image data "image/png"], st)

/-- The undecorated body of `ClickToolHandler.handle` (server.py lines
275-282). -/
def click_handle_inner (env : Env) (selector? : Option String) (st : ServerState) :
    HandlerResult :=
  if st.sessions.isEmpty then .ok ([.text noSessionText], st)
  else
    match env.clickResult selector? with
    | .error e => .error e
    | .ok _ =>
      .ok ([.text ("Clicked element with selector " ++ pyStrOptStr selector?)], st)

/-- The undecorated body of `ClickTextToolHandler.handle` (server.py lines
307-314). -/
def click_text_handle_inner (env : Env) (text? : Option String) (st : ServerState) :
    HandlerResult :=
  if st.sessions.isEmpty then .ok ([.text noSessionText], st)
  else
    match env.clickTextResult text? with
    | .error e => .error e
    | .ok _ =>
      .ok ([.text ("Clicked element with text " ++ pyStrOptStr text?)], st)

/-- The `update_page_after_click` decorator (server.py lines 198-219): bail
out with the no-session text when the mapping is empty; otherwise arm the
new-page wait, run the wrapped handler, and afterwards — inside a bare
try/except — adopt the new page as the session's tracked page if one
appeared; timeouts and adoption failures are swallowed. -/
def update_page_after_click
    (inner : Env → Option String → ServerState → HandlerResult)
    (env : Env) (arg : Option String) (st : ServerState) : HandlerResult :=
  if st.sessions.isEmpty then .ok ([.text noSessionText], st)
  else
    match st.sessions.getLast? with
    | none => .error "IndexError: list index out of range"
    | some (sid, _) =>
      match inner env arg st with
      | .error e => .error e
      | .ok (res, st') =>
        match env.adoptedPage, dictGet? sid st'.sessions with
        | some newPage, some sess =>
          .ok (res, { st' with
            sessions := dictInsert sid { sess with page := newPage } st'.sessions })
        | _, _ => .ok (res, st')

/-- `ClickToolHandler.handle` with its decorator. -/
def click_handle (env : Env) (selector? : Option String) (st : ServerState) :
    HandlerResult :=
  update_page_after_click click_handle_inner env selector? st

/-- `ClickTextToolHandler.handle` with its decorator. -/
def click_text_handle (env : Env) (text? : Option String) (st : ServerState) :
    HandlerResult :=
  update_page_after_click click_text_handle_inner env text? st

/-- `FillToolHandler.handle` (server.py lines 284-293). -/
def fill_handle (env : Env) (selector? value? : Option String) (st : ServerState) :
    HandlerResult :=
  if st.sessions.isEmpty then .ok ([.text noSessionText], st)
  else
    match env.fillResult selector? value? with
    | .error e => .error e
    | .ok _ =>
      .ok ([.text ("Filled element with selector " ++ pyStrOptStr selector? ++
        " with value " ++ pyStrOptStr value?)], st)

/-- `EvaluateToolHandler.handle` (server.py lines 295-303): **no try/except**;
a failing `page.evaluate` propagates to the caller. -/
def evaluate_handle (env : Env) (script? : Option String) (st : ServerState) :
    HandlerResult :=
  if st.sessions.isEmpty then .ok ([.text noSessionText], st)
  else
    match env.evaluateResult script? with
    | .error e => .error e
    | .ok r => .ok ([.text ("Evaluated script, result: " ++ r)], st)

/-- `GetHtmlContentToolHandler.handle` (server.py lines 353-361). -/
def get_html_content_handle (env : Env) (selector? : Option String)
    (st : ServerState) : HandlerResult :=
  if st.sessions.isEmpty then .ok ([.text noSessionText], st)
  else
    match env.innerHtmlResult selector? with
    | .error e => .error e
    | .ok html =>
      .ok ([.text ("HTML content of element with selector " ++
        pyStrOptStr selector? ++ ": " ++ html)], st)

/-- `[{log['timestamp']}] [{log['type']}] {log['text']}` plus the optional
location suffix (console_log_handler.py lines 63-67). -/
def formatConsoleLog (log : ConsoleLogEntry) : String :=
  let entry := "[" ++ log.timestamp ++ "] [" ++ log.type ++ "] " ++ log.text
  if log.lineNumber ≠ none then
    entry ++ " (at " ++ log.locationUrl ++ ":" ++ pyStrOptInt log.lineNumber ++
      ":" ++ pyStrOptInt log.columnNumber ++ ")"
  else entry

/-- `ConsoleLogHandler.handle` (console_log_handler.py lines 36-75): the
`except` clauses convert any failure — in particular the no-active-session
`ValueError` — into a plain text result.  The 5-second sleep has no effect on
state.  The page handle for the listener setup is the active session's page. -/
def console_logs_handle (args : Option ConsoleArgs) (st : ServerState) :
    HandlerResult :=
  match get_active_session st.sessions with
  | .error msg => .ok ([.text msg], st)
  | .ok (sid, sess) =>
    let st := setup_console_log_listener sid sess.page st
    let logs := (dictGet? sid st.console_logs).getD []
    let logs := queryConsoleLogs args logs
    let formatted := logs.map formatConsoleLog
    let result := if formatted.isEmpty then "No console logs available."
      else String.intercalate "\n" formatted
    .ok ([.text result], st)

/-- Indented header dump (network_handler.py lines 155-161). -/
def formatHeaderLines (hs : List (String × String)) : List String :=
  hs.map (fun kv => "    " ++ kv.1 ++ ": " ++ kv.2)

/-- Truthiness of `arguments.get("show_headers", False)` given optional
arguments. -/
def showHeadersOf : Option NetworkArgs → Bool
  | none => false
  | some a => a.show_headers

def showBodyOf : Option NetworkArgs → Bool
  | none => false
  | some a => a.show_body

/-- The per-event display block of `NetworkHandler.handle` (lines 140-182):
the summary line, then headers when requested and truthy, then the response
body when requested and truthy — JSON pretty-printed when possible and
truncated past 1000 characters. -/
def formatNetworkEvent (env : Env) (args : Option NetworkArgs) (e : NetworkEvent) :
    List String :=
  let entry := "[" ++ e.timestamp ++ "] " ++ e.method ++ " " ++ e.url ++
    " (" ++ e.resource_type ++ ")"
  let entry := match e.status with
    | some s => entry ++ " - Status: " ++ toString s ++ " " ++ pyStrOptStr e.status_text
    | none => entry
  let entry := match e.response_size with
    | some n => entry ++ ", Size: " ++ toString n ++ " bytes"
    | none => entry
  let headerBlock :=
    if showHeadersOf args then
      (if e.headers ≠ [] then "  Request Headers:" :: formatHeaderLines e.headers
       else []) ++
      (match e.response_headers with
       | some rh => if rh ≠ [] then "  Response Headers:" :: formatHeaderLines rh else []
       | none => [])
    else []
  let bodyBlock :=
    if showBodyOf args && (e.response_body.getD "") ≠ "" then
      let body := e.response_body.getD ""
      let body :=
        if strIncludes "json"
            (dictGetD "content-type" "" ((e.response_headers).getD [])) then
          match env.jsonPretty body with
          | some pretty => pretty
          | none => body
        else body
      let body := if body.length > 1000 then body.take 1000 ++ "... [truncated]"
        else body
      "  Response Body:" :: (body.splitOn "\n").map (fun line => "    " ++ line)
    else []
  entry :: headerBlock ++ bodyBlock

/-- `NetworkHandler.handle` (network_handler.py lines 97-190): like the
console handler, every failure is converted to text; the happy path sets up
the listener, queries and formats. -/
def network_activity_handle (env : Env) (args : Option NetworkArgs)
    (st : ServerState) : HandlerResult :=
  match get_active_session st.sessions with
  | .error msg => .ok ([.text msg], st)
  | .ok (sid, sess) =>
    let st := setup_network_listener sid sess.page st
    let events := (dictGet? sid st.network_events).getD []
    let events := queryNetworkEvents args events
    let result := (events.map (formatNetworkEvent env args)).flatten
    let formatted := if result.isEmpty then "No network activity recorded."
      else String.intercalate "\n" result
    .ok ([.text formatted], st)

/-- The arguments dict of a tool call, one optional slot per schema field. -/
structure ToolArguments where
  url : Option String := none
  name : Option String := none
  selector : Option String := none
  value : Option String := none
  script : Option String := none
  text : Option String := none
  type : Option String := none
  limit : Option Int := none
  method : Option String := none
  status_min : Option Int := none
  status_max : Option Int := none
  resource_type : Option String := none
  show_headers : Bool := false
  show_body : Bool := false

def ToolArguments.toConsoleArgs (a : ToolArguments) : ConsoleArgs :=
  { type := a.type, limit := a.limit }

def ToolArguments.toNetworkArgs (a : ToolArguments) : NetworkArgs :=
  { url := a.url, method := a.method, status_min := a.status_min,
    status_max := a.status_max, resource_type := a.resource_type,
    limit := a.limit, show_headers := a.show_headers, show_body := a.show_body }

/-- `handle_call_tool` (server.py lines 382-394): dispatch to the handler
registered under the tool name, or raise `ValueError` for unknown names.
There is no try/except around the dispatched call, so handler failures
propagate.  (Passing `arguments = None` to a handler that calls
`arguments.get` raises; this is collapsed into the missing-argument error of
the handler.) -/
def handle_call_tool (env : Env) (name : String) (args : Option ToolArguments)
    (st : ServerState) : HandlerResult :=
  if name = "playwright_navigate" then
    navigate_handle env (args.bind ToolArguments.url) st
  else if name = "playwright_screenshot" then
    screenshot_handle env (args.bind ToolArguments.name) (args.bind ToolArguments.selector) st
  else if name = "playwright_click" then
    click_handle env (args.bind ToolArguments.selector) st
  else if name = "playwright_fill" then
    fill_handle env (args.bind ToolArguments.selector) (args.bind ToolArguments.value) st
  else if name = "playwright_evaluate" then
    evaluate_handle env (args.bind ToolArguments.script) st
  else if name = "playwright_click_text" then
    click_text_handle env (args.bind ToolArguments.text) st
  else if name = "playwright_get_text_content" then
    get_text_content_handle env st
  else if name = "playwright_get_html_content" then
    get_html_content_handle env (args.bind ToolArguments.selector) st
  else if name = "playwright_new_session" then
    new_session_handle env (args.bind ToolArguments.url) st
  else if name = "playwright_get_console_logs" then
    console_logs_handle (args.map ToolArguments.toConsoleArgs) st
  else if name = "playwright_get_network_activity" then
    network_activity_handle env (args.map ToolArguments.toNetworkArgs) st
  else
    .error ("Unknown tool: " ++ name)

/-! ## Theorems about the tool handlers (C4, C6, C9) -/

/-- The no-active-session `ValueError` text raised (and then surfaced as plain
text) by the log handlers when the session mapping is empty. -/
def noActiveBrowserMsg : String :=
  "No active browser session(self._sessions=\x7b\x7d). Please create a new session first."

/-- An all-successful driver environment for witnesses. -/
def sampleOkEnv : Env :=
  { startResult := .ok (), launchResult := .ok 11, newPageResult := .ok 12,
    freshSessionId := "sid-1",
    gotoResult := fun _ => .ok (), uniqueTextsResult := .ok ["hello"],
    evaluateResult := fun _ => .ok "42", clickResult := fun _ => .ok (),
    clickTextResult := fun _ => .ok (), fillResult := fun _ _ => .ok (),
    screenshotResult := fun _ => .ok "IMGDATA",
    innerHtmlResult := fun _ => .ok "<p></p>",
    adoptedPage := none, jsonPretty := fun _ => none }

/-- One registered session, for exercising the happy-path branches. -/
def sampleOneSessionState : ServerState := { sessions := [("s1", ⟨1, 2⟩)] }

/-- The successful environment, except that `page.evaluate` raises. -/
def sampleFailEnv : Env :=
  { sampleOkEnv with evaluateResult := fun _ => .error "ZeroDivisionError" }

/-- The page text used to exhibit the missing navigate truncation. -/
def sampleLongText : String := String.mk (List.replicate 250 'a')

/-- A successful environment whose page text content is 250 characters. -/
def sampleNavEnv : Env := { sampleOkEnv with uniqueTextsResult := .ok [sampleLongText] }

/-- The state navigate leaves behind in the run below. -/
def sampleNavState : ServerState :=
  initialize_session "sid-1" 12 { sessions := [("sid-1", ⟨11, 12⟩)] }

theorem dictInsert_fresh [DecidableEq κ] (k : κ) (v : α) (d : List (κ × α))
    (h : dictGet? k d = none) : dictInsert k v d = d ++ [(k, v)] := by
  induction d with
  | nil => rfl
  | cons hd tl ih =>
    obtain ⟨k', v'⟩ := hd
    simp only [dictGet?] at h
    by_cases hk : k' = k
    · simp [hk] at h
    · simp only [dictInsert, if_neg hk]
      simp only [if_neg hk] at h
      simp [ih h]

theorem dictGet?_eq_none_iff [DecidableEq κ] (k : κ) (d : List (κ × α)) :
    dictGet? k d = none ↔ k ∉ d.map Prod.fst := by
  induction d with
  | nil => simp [dictGet?]
  | cons hd tl ih =>
    obtain ⟨k', v'⟩ := hd
    by_cases hk : k' = k
    · subst hk; simp [dictGet?]
    · simp [dictGet?, hk, ih, Ne.symm hk]

theorem foldl_create_append (cs : List (String × Session)) :
    ∀ (acc : Sessions), (∀ k ∈ cs.map Prod.fst, dictGet? k acc = none) →
      (cs.map Prod.fst).Nodup →
      cs.foldl (fun acc kv => createSession kv.1 kv.2 acc) acc = acc ++ cs := by
  induction cs with
  | nil => intro acc _ _; simp
  | cons hd tl ih =>
    intro acc hfresh hnd'
    obtain ⟨k, v⟩ := hd
    simp only [List.foldl_cons]
    have hk : dictGet? k acc = none := hfresh k (by simp)
    have step : createSession k v acc = acc ++ [(k, v)] := dictInsert_fresh k v acc hk
    rw [step]
    rw [List.map_cons, List.nodup_cons] at hnd'
    have htl : tl.foldl (fun acc kv => createSession kv.1 kv.2 acc) (acc ++ [(k, v)])
        = (acc ++ [(k, v)]) ++ tl := by
      apply ih
      · intro k' hk'
        rw [dictGet?_eq_none_iff]
        simp only [List.map_append, List.map_cons, List.map_nil]
        intro hmem
        rcases List.mem_append.mp hmem with h1 | h2
        · exact absurd (hfresh k' (by simp [hk'])) (by
            rw [dictGet?_eq_none_iff]
            simp [h1])
        · simp only [List.mem_singleton] at h2
          exact hnd'.1 (h2 ▸ hk')
      · exact hnd'.2
    rw [htl]; simp

theorem createAll_eq_self (cs : List (String × Session))
    (hnd : (cs.map Prod.fst).Nodup) : createAll cs = cs := by
  simpa using foldl_create_append cs [] (by intro k _; rfl) hnd

theorem dictGet?_getLast [DecidableEq κ] (d : List (κ × α)) (kv : κ × α)
    (hnd : (d.map Prod.fst).Nodup) (hlast : d.getLast? = some kv) :
    dictGet? kv.1 d = some kv.2 := by
  induction d with
  | nil => simp at hlast
  | cons hd tl ih =>
    obtain ⟨k', v'⟩ := hd
    cases tl with
    | nil =>
      simp only [List.getLast?_singleton, Option.some.injEq] at hlast
      subst hlast; simp [dictGet?]
    | cons h2 t2 =>
      have hlast' : (h2 :: t2).getLast? = some kv := by
        rw [List.getLast?_cons_cons] at hlast; exact hlast
      rw [List.map_cons, List.nodup_cons] at hnd
      have hmem : kv.1 ∈ (h2 :: t2).map Prod.fst := by
        have hin : kv ∈ h2 :: t2 := List.mem_of_mem_getLast? (by rw [hlast']; rfl)
        exact List.mem_map_of_mem Prod.fst hin
      have hne : k' ≠ kv.1 := fun he => hnd.1 (he ▸ hmem)
      simp only [dictGet?, if_neg hne]
      exact ih hnd.2 hlast'

/-- **C1.** For every sequence of session creations with fresh (never-reused)
session ids: while the mapping is non-empty, `_get_active_session` returns the
most recently created session and never an older one; on the empty mapping it
fails with the no-active-session `ValueError`. -/
theorem active_session_is_most_recent (cs : List (String × Session))
    (hnd : (cs.map Prod.fst).Nodup) :
    (cs = [] → ∃ msg, get_active_session (createAll cs) = .error msg) ∧
    (∀ h : cs ≠ [], get_active_session (createAll cs) = .ok (cs.getLast h)) := by
  constructor
  · rintro rfl
    exact ⟨_, rfl⟩
  · intro h
    rw [createAll_eq_self cs hnd]
    have hne : ¬ cs.isEmpty := by simpa [List.isEmpty_iff] using h
    have hlast : cs.getLast? = some (cs.getLast h) := List.getLast?_eq_getLast cs h
    simp only [get_active_session, hne, Bool.false_eq_true, if_false, hlast]
    rw [dictGet?_getLast cs (cs.getLast h) hnd hlast]

/-- Witness for C1 at a concrete two-creation run: the second session wins. -/
theorem active_session_is_most_recent_witness :
    get_active_session (createAll [("a", ⟨1, 2⟩), ("b", ⟨3, 4⟩)]) = .ok ("b", ⟨3, 4⟩) :=
  (active_session_is_most_recent [("a", ⟨1, 2⟩), ("b", ⟨3, 4⟩)] (by decide)).2
    (by decide)

/-! ## Console log entries and the console query (console_log_handler.py) -/

theorem ite_filter_eq {α : Type} (c : Prop) [Decidable c] (p : α → Bool)
    (l : List α) :
    (if c then l.filter p else l) = l.filter (fun e => if c then p e else true) := by
  by_cases h : c <;> simp [h]

theorem ite_filter_eq' {α : Type} (c : Prop) [Decidable c] (p : α → Bool)
    (l : List α) :
    (if c then l else l.filter p) = l.filter (fun e => decide c || p e) := by
  by_cases h : c <;> simp [h]

theorem applyNetworkFilters_eq (a : NetworkArgs) (events : List NetworkEvent) :
    applyNetworkFilters a events = events.filter (fun e => networkEventMatches a e) := by
  obtain ⟨u, m, smin, smax, rt, lim, sh, sb⟩ := a
  rcases u with _ | u <;> rcases m with _ | m <;> rcases smin with _ | smin <;>
    rcases smax with _ | smax <;> rcases rt with _ | rt <;>
    simp only [applyNetworkFilters, networkEventMatches] <;>
    (try split_ifs) <;>
    simp_all [List.filter_filter, Bool.and_assoc, Bool.and_comm, Bool.and_left_comm]

/-- `l[-limit:]` for a positive limit keeps exactly the suffix of the
`limit` last elements. -/
theorem pySliceFrom_neg_pos (limit : Int) (hpos : 0 < limit) (l : List α) :
    pySliceFrom (-limit) l = l.drop (l.length - limit.toNat) := by
  simp only [pySliceFrom]
  rw [if_pos (by omega)]
  congr 1
  omega

theorem queryConsoleLogs_eq (a : ConsoleArgs) (logs : List ConsoleLogEntry)
    (h : 0 < a.limit.getD 100) :
    queryConsoleLogs (some a) logs =
      (logs.filter (fun l => consoleLogMatches a l)).drop
        ((logs.filter (fun l => consoleLogMatches a l)).length - (a.limit.getD 100).toNat) := by
  obtain ⟨t, lim⟩ := a
  rcases t with _ | t <;>
    simp [queryConsoleLogs, consoleLogMatches, ite_filter_eq, ite_filter_eq', pySliceFrom_neg_pos, h]

theorem queryNetworkEvents_eq (a : NetworkArgs) (events : List NetworkEvent)
    (h : 0 < a.limit.getD 50) :
    queryNetworkEvents (some a) events =
      (events.filter (fun e => networkEventMatches a e)).drop
        ((events.filter (fun e => networkEventMatches a e)).length - (a.limit.getD 50).toNat) := by
  simp only [queryNetworkEvents]
  rw [applyNetworkFilters_eq, pySliceFrom_neg_pos _ h]

/-- **C2.** For every event history, filter conjunction and positive limit `N`,
both log queries (console and network) filter the full history first and then
return the suffix of the at most `N` chronologically-latest matching events,
in original insertion order: the result is exactly
`drop (matching.length - N) matching`, whose length is at most `N`. -/
theorem query_filters_then_takes_latest
    (ca : ConsoleArgs) (logs : List ConsoleLogEntry)
    (na : NetworkArgs) (events : List NetworkEvent)
    (hc : 0 < ca.limit.getD 100) (hn : 0 < na.limit.getD 50) :
    (queryConsoleLogs (some ca) logs =
        (logs.filter (fun l => consoleLogMatches ca l)).drop
          ((logs.filter (fun l => consoleLogMatches ca l)).length - (ca.limit.getD 100).toNat) ∧
      (queryConsoleLogs (some ca) logs).length ≤ (ca.limit.getD 100).toNat) ∧
    (queryNetworkEvents (some na) events =
        (events.filter (fun e => networkEventMatches na e)).drop
          ((events.filter (fun e => networkEventMatches na e)).length - (na.limit.getD 50).toNat) ∧
      (queryNetworkEvents (some na) events).length ≤ (na.limit.getD 50).toNat) := by
  refine ⟨⟨queryConsoleLogs_eq ca logs hc, ?_⟩, ⟨queryNetworkEvents_eq na events hn, ?_⟩⟩
  · rw [queryConsoleLogs_eq ca logs hc, List.length_drop]
    omega
  · rw [queryNetworkEvents_eq na events hn, List.length_drop]
    omega

/-- Witness for C2: three console logs, type filter `err`, limit 1 keeps only
the latest matching entry; four network events, method filter GET, limit 2. -/
theorem query_filters_then_takes_latest_witness :
    (0 : Int) < ((some 1 : Option Int).getD 100) ∧
    queryConsoleLogs (some { type := some "err", limit := some 1 })
        [⟨"err", "a", "u", none, none, "t1"⟩,
         ⟨"log", "b", "u", none, none, "t2"⟩,
         ⟨"err", "c", "u", none, none, "t3"⟩] =
      [⟨"err", "c", "u", none, none, "t3"⟩] := by
  have h := query_filters_then_takes_latest
    { type := some "err", limit := some 1 }
    [⟨"err", "a", "u", none, none, "t1"⟩,
     ⟨"log", "b", "u", none, none, "t2"⟩,
     ⟨"err", "c", "u", none, none, "t3"⟩]
    {} [] (by decide) (by decide)
  refine ⟨by decide, ?_⟩
  rw [h.1.1]
  decide

/-- **C10.** Whenever `status_min` or `status_max` is given, every event whose
response has not yet arrived (`status` still `None`) is excluded from the
network query result, regardless of the bounds. -/
theorem status_filter_excludes_pending (a : NetworkArgs) (events : List NetworkEvent)
    (h : a.status_min ≠ none ∨ a.status_max ≠ none) :
    ∀ e ∈ queryNetworkEvents (some a) events, e.status ≠ none := by
  intro e he
  have hmem : e ∈ applyNetworkFilters a events := by
    simp only [queryNetworkEvents] at he
    exact List.drop_subset _ _ he
  rw [applyNetworkFilters_eq] at hmem
  have hmatch : networkEventMatches a e = true := List.of_mem_filter hmem
  simp only [networkEventMatches, Bool.and_eq_true] at hmatch
  rcases h with h | h
  · rcases ha : a.status_min with _ | m
    · exact absurd ha h
    · have hml := hmatch.1.1.2
      rw [ha] at hml
      intro hs
      simp [statusAtLeast, hs] at hml
  · rcases ha : a.status_max with _ | m
    · exact absurd ha h
    · have hml := hmatch.1.2
      rw [ha] at hml
      intro hs
      simp [statusAtMost, hs] at hml

/-- Witness for C10: a pending event (status `None`) is dropped by a
`status_min=0` query that every completed status would pass. -/
theorem status_filter_excludes_pending_witness :
    ((({ status_min := some 0 } : NetworkArgs).status_min ≠ none ∨
      ({ status_min := some 0 } : NetworkArgs).status_max ≠ none) ∧
     ∀ e ∈ queryNetworkEvents (some { status_min := some 0 })
        [{ id := 1, url := "https://x", method := "GET", headers := [],
           post_data := none, resource_type := "fetch", timestamp := "t" }],
       e.status ≠ none) := by
  refine ⟨Or.inl (by simp), ?_⟩
  exact status_filter_excludes_pending { status_min := some 0 } _ (Or.inl (by simp))

/-! ## UTF-8 decoding (model of Python `bytes.decode("utf-8")`)

A strict UTF-8 decoder over byte lists: rejects truncated sequences,
continuation errors, overlong encodings, surrogates and code points above
`U+10FFFF`, exactly as CPython's strict `utf-8` codec does. -/

theorem dictInsert_self [DecidableEq κ] (k : κ) (v : α) (d : List (κ × α))
    (h : dictGet? k d = some v) : dictInsert k v d = d := by
  induction d with
  | nil => simp [dictGet?] at h
  | cons hd tl ih =>
    obtain ⟨k', v'⟩ := hd
    by_cases hk : k' = k
    · subst hk
      have h' : v' = v := by simpa [dictGet?] using h
      simp [dictInsert, h']
    · simp only [dictGet?, if_neg hk] at h
      simp [dictInsert, hk, ih h]

theorem respUpdateLoop_no_match (resp : PwResponse) (es : List NetworkEvent)
    (h : ∀ e ∈ es, e.id ≠ resp.request.reqId) :
    respUpdateLoop resp es = .ok es := by
  induction es with
  | nil => rfl
  | cons e rest ih =>
    have hne : e.id ≠ resp.request.reqId := h e (by simp)
    simp only [respUpdateLoop, if_neg hne]
    rw [ih (fun x hx => h x (by simp [hx]))]

theorem respUpdateLoop_match (resp : PwResponse) (headers : List (String × String))
    (hh : resp.headersResult = .ok headers)
    (pre post : List NetworkEvent) (m : NetworkEvent)
    (hpre : ∀ e ∈ pre, e.id ≠ resp.request.reqId)
    (hm : m.id = resp.request.reqId) :
    respUpdateLoop resp (pre ++ m :: post) =
      .ok (pre ++ updateEventWithResponse resp headers m :: post) := by
  induction pre with
  | nil => simp [respUpdateLoop, hm, hh]
  | cons e rest ih =>
    have hne : e.id ≠ resp.request.reqId := hpre e (by simp)
    simp only [List.cons_append, respUpdateLoop, if_neg hne, List.append_eq]
    rw [ih (fun x hx => hpre x (by simp [hx]))]

theorem updateEventWithResponse_populates (resp : PwResponse)
    (headers : List (String × String)) (e : NetworkEvent) :
    (updateEventWithResponse resp headers e).status = some resp.status ∧
    (updateEventWithResponse resp headers e).status_text = some resp.status_text ∧
    (updateEventWithResponse resp headers e).response_headers = some headers := by
  simp only [updateEventWithResponse]
  rcases resp.bodyResult with _ | body
  · exact ⟨rfl, rfl, rfl⟩
  · dsimp only
    split
    · rcases pyDecodeUtf8 body with _ | s <;> simp
    · simp

/-- **C3.** For every session's bucketed network event list and every response
whose headers are readable: if no recorded event matches the response's
request identity the buckets are completely unchanged (no response-only
orphan); if the list splits as `pre ++ m :: post` with `m` the first match,
exactly `m` is patched in place — `status`, `status_text` and
`response_headers` become populated — the surrounding events are untouched,
and the list keeps its length (no duplicate entry for that identity). -/
theorem network_response_patches_in_place (resp : PwResponse) (sid : String)
    (buckets : NetworkBuckets) (es pre post : List NetworkEvent) (m : NetworkEvent)
    (headers : List (String × String))
    (hb : dictGet? sid buckets = some es)
    (hh : resp.headersResult = .ok headers) :
    ((∀ e ∈ es, e.id ≠ resp.request.reqId) →
        handle_response resp sid buckets = .ok buckets) ∧
    (es = pre ++ m :: post → (∀ e ∈ pre, e.id ≠ resp.request.reqId) →
        m.id = resp.request.reqId →
        handle_response resp sid buckets =
          .ok (dictInsert sid (pre ++ updateEventWithResponse resp headers m :: post)
            buckets) ∧
        (pre ++ updateEventWithResponse resp headers m :: post).length = es.length ∧
        (updateEventWithResponse resp headers m).status = some resp.status ∧
        (updateEventWithResponse resp headers m).status_text = some resp.status_text ∧
        (updateEventWithResponse resp headers m).response_headers = some headers) := by
  constructor
  · intro hnone
    simp only [handle_response, handle_response_body, hb,
      respUpdateLoop_no_match resp es hnone]
    rw [dictInsert_self sid es buckets hb]
  · intro hsplit hpre hm
    refine ⟨?_, ?_, updateEventWithResponse_populates resp headers m⟩
    · simp only [handle_response, handle_response_body, hb, hsplit,
        respUpdateLoop_match resp headers hh pre post m hpre hm]
    · simp [hsplit]

/-- Witness for C3: in a two-event bucket the response for the second request
patches exactly that event, keeping the bucket length at 2. -/
theorem network_response_patches_in_place_witness :
    handle_response sampleResponseB "s1" [("s1", [sampleEventA, sampleEventB])] =
      .ok [("s1", [sampleEventA,
        updateEventWithResponse sampleResponseB
          [("content-type", "application/json")] sampleEventB])] := by
  have h := network_response_patches_in_place sampleResponseB "s1"
    [("s1", [sampleEventA, sampleEventB])] [sampleEventA, sampleEventB]
    [sampleEventA] [] sampleEventB [("content-type", "application/json")]
    (by rfl) (by rfl)
  have h2 := (h.2 rfl (by intro e he; simp at he; subst he; decide) (by decide)).1
  simpa [dictInsert] using h2

/-- **C7 (amended).** For every captured response whose body read succeeds and
whose event had no body yet: `response_body` is exactly the UTF-8 decode of
the body when the content type is textual (json/text/javascript/css) and the
size is under 10240 bytes, and `None` otherwise; in particular it is present
iff the content type is textual, the size is under the ceiling, **and** the
bytes decode as UTF-8 — a textual response whose bytes are not valid UTF-8
ends with `response_body` unset. -/
theorem response_body_captured_iff (resp : PwResponse)
    (headers : List (String × String)) (e : NetworkEvent) (body : List Nat)
    (hbody : resp.bodyResult = .ok body) (he : e.response_body = none) :
    (updateEventWithResponse resp headers e).response_body =
      (if body.length < 10240 &&
          isTextualContentType (dictGetD "content-type" "" headers) then
        pyDecodeUtf8 body
      else none) ∧
    ((updateEventWithResponse resp headers e).response_body.isSome ↔
      body.length < 10240 ∧
        isTextualContentType (dictGetD "content-type" "" headers) = true ∧
        (pyDecodeUtf8 body).isSome) := by
  have heq : (updateEventWithResponse resp headers e).response_body =
      (if body.length < 10240 &&
          isTextualContentType (dictGetD "content-type" "" headers) then
        pyDecodeUtf8 body
      else none) := by
    simp only [updateEventWithResponse, hbody]
    split
    · rcases hd : pyDecodeUtf8 body with _ | s
      · simpa [hd] using he
      · simp [hd]
    · simpa using he
  refine ⟨heq, ?_⟩
  rw [heq]
  by_cases hsz : body.length < 10240 <;>
    by_cases hct : isTextualContentType (dictGetD "content-type" "" headers) = true <;>
    simp [hsz, hct]

/-- Witness for C7's amended claim: a 2-byte `application/json` body `"hi"`
is stored decoded. -/
theorem response_body_captured_iff_witness :
    (updateEventWithResponse sampleResponseB [("content-type", "application/json")]
      sampleEventB).response_body = some "hi" := by
  have h := response_body_captured_iff sampleResponseB
    [("content-type", "application/json")] sampleEventB [104, 105] (by rfl) (by rfl)
  rw [h.1]
  decide

/-- **C7 counterexample.** The claim "for every text/JSON response under 10 KB
`responseBody` is present" fails on the code: a 1-byte `text/plain` body
`0xFF` is not valid UTF-8, the decode failure is swallowed, and
`response_body` stays `None` although the response is textual and far under
the ceiling. -/
theorem response_body_small_text_absent :
    (updateEventWithResponse
        { request := sampleRequestA, status := 200, status_text := "OK",
          headersResult := .ok [("content-type", "text/plain")],
          bodyResult := .ok [255] }
        [("content-type", "text/plain")] sampleEventA).response_body = none ∧
    [255].length < 10240 ∧
    isTextualContentType "text/plain" = true := by
  refine ⟨?_, by decide, by decide⟩
  decide

/-- **C5 (amended).** Failures inside the request and response callbacks are
swallowed at the callback boundary — for all driver inputs and bucket states
the callbacks return normally — but the console callback has no such guard:
a failing in-page clock evaluation propagates out of `handle_console`. -/
theorem event_callback_failure_policy (clock : Except String String)
    (req : PwRequest) (resp : PwResponse) (sid : String) (nb : NetworkBuckets)
    (msg : PwConsoleMsg) (cb : ConsoleBuckets) :
    (∃ b, handle_request clock req sid nb = .ok b) ∧
    (∃ b, handle_response resp sid nb = .ok b) ∧
    (handle_console (.error "Target page, context or browser has been closed")
        msg sid cb =
      .error "Target page, context or browser has been closed") := by
  refine ⟨?_, ?_, rfl⟩
  · unfold handle_request
    rcases handle_request_body clock req sid nb with _ | b <;> exact ⟨_, rfl⟩
  · unfold handle_response
    rcases handle_response_body resp sid nb with _ | b <;> exact ⟨_, rfl⟩

/-- **C5 counterexample.** "Every console, request, or response event callback
swallows failures" is false: on a console message whose timestamp evaluation
raises (e.g. the page was closed), `handle_console` propagates the failure
out of the callback instead of swallowing it. -/
theorem console_callback_propagates_failure :
    handle_console (.error "Page closed") ⟨"log", "hi", "https://x", none, none⟩
      "s1" [("s1", [])] = .error "Page closed" := rfl

/-! ## Listener attachment (C8)

The per-page attribute storage models `hasattr`/`setattr` on the playwright
page object: attributes of a fresh page are absent.  Listener registrations
(`page.on(...)`) are counted so that duplicate-subscription questions can be
asked. -/

theorem dictGet?_insert_self [DecidableEq κ] (k : κ) (v : α) (d : List (κ × α)) :
    dictGet? k (dictInsert k v d) = some v := by
  induction d with
  | nil => simp [dictInsert, dictGet?]
  | cons hd tl ih =>
    obtain ⟨k', v'⟩ := hd
    by_cases hk : k' = k
    · simp [dictInsert, dictGet?, hk]
    · simp [dictInsert, dictGet?, hk, ih]

theorem setup_console_bucket (sid : String) (pageH : Nat) (st : ServerState) :
    (dictGet? sid (setup_console_log_listener sid pageH st).console_logs).isSome := by
  rcases hb : dictGet? sid st.console_logs with _ | b <;>
    by_cases hf : ((dictGet? pageH st.pages).getD ({} : PageState)).consoleListenerAdded <;>
    simp [setup_console_log_listener, getPageState, hb, hf, dictGet?_insert_self]

theorem setup_console_flag (sid : String) (pageH : Nat) (st : ServerState) :
    (getPageState pageH (setup_console_log_listener sid pageH st)).consoleListenerAdded
      = true := by
  rcases hb : dictGet? sid st.console_logs with _ | b <;>
    by_cases hf : ((dictGet? pageH st.pages).getD ({} : PageState)).consoleListenerAdded <;>
    simp [setup_console_log_listener, getPageState, hb, hf, dictGet?_insert_self]

theorem setup_console_noop (sid : String) (pageH : Nat) (st : ServerState)
    (hb : (dictGet? sid st.console_logs).isSome = true)
    (hf : (getPageState pageH st).consoleListenerAdded = true) :
    setup_console_log_listener sid pageH st = st := by
  rcases Option.isSome_iff_exists.mp hb with ⟨b, hbb⟩
  simp [setup_console_log_listener, hbb, hf]

theorem setup_console_idem (sid : String) (pageH : Nat) (st : ServerState) :
    setup_console_log_listener sid pageH (setup_console_log_listener sid pageH st) =
      setup_console_log_listener sid pageH st :=
  setup_console_noop sid pageH _ (setup_console_bucket sid pageH st)
    (setup_console_flag sid pageH st)

theorem setup_network_bucket (sid : String) (pageH : Nat) (st : ServerState) :
    (dictGet? sid (setup_network_listener sid pageH st).network_events).isSome := by
  rcases hb : dictGet? sid st.network_events with _ | b <;>
    by_cases hf : ((dictGet? pageH st.pages).getD ({} : PageState)).networkListenerAdded <;>
    simp [setup_network_listener, getPageState, hb, hf, dictGet?_insert_self]

theorem setup_network_flag (sid : String) (pageH : Nat) (st : ServerState) :
    (getPageState pageH (setup_network_listener sid pageH st)).networkListenerAdded
      = true := by
  rcases hb : dictGet? sid st.network_events with _ | b <;>
    by_cases hf : ((dictGet? pageH st.pages).getD ({} : PageState)).networkListenerAdded <;>
    simp [setup_network_listener, getPageState, hb, hf, dictGet?_insert_self]

theorem setup_network_noop (sid : String) (pageH : Nat) (st : ServerState)
    (hb : (dictGet? sid st.network_events).isSome = true)
    (hf : (getPageState pageH st).networkListenerAdded = true) :
    setup_network_listener sid pageH st = st := by
  rcases Option.isSome_iff_exists.mp hb with ⟨b, hbb⟩
  simp [setup_network_listener, hbb, hf]

theorem setup_network_idem (sid : String) (pageH : Nat) (st : ServerState) :
    setup_network_listener sid pageH (setup_network_listener sid pageH st) =
      setup_network_listener sid pageH st :=
  setup_network_noop sid pageH _ (setup_network_bucket sid pageH st)
    (setup_network_flag sid pageH st)

theorem iterate_setup_console (sid : String) (pageH : Nat) (st : ServerState)
    (n : Nat) :
    (setup_console_log_listener sid pageH)^[n + 1] st =
      setup_console_log_listener sid pageH st := by
  induction n with
  | zero => rfl
  | succ n ih =>
    rw [Function.iterate_succ_apply', ih, setup_console_idem]

theorem iterate_setup_network (sid : String) (pageH : Nat) (st : ServerState)
    (n : Nat) :
    (setup_network_listener sid pageH)^[n + 1] st =
      setup_network_listener sid pageH st := by
  induction n with
  | zero => rfl
  | succ n ih =>
    rw [Function.iterate_succ_apply', ih, setup_network_idem]

theorem setup_console_count_fresh (sid : String) (pageH : Nat) (st : ServerState)
    (hfresh : getPageState pageH st = {}) :
    (getPageState pageH (setup_console_log_listener sid pageH st)).consoleListeners
      = 1 := by
  simp only [getPageState] at hfresh
  rcases hb : dictGet? sid st.console_logs with _ | b <;>
    simp [setup_console_log_listener, getPageState, hb, hfresh, dictGet?_insert_self]

theorem setup_network_count_fresh (sid : String) (pageH : Nat) (st : ServerState)
    (hfresh : getPageState pageH st = {}) :
    (getPageState pageH (setup_network_listener sid pageH st)).requestListeners = 1 ∧
    (getPageState pageH (setup_network_listener sid pageH st)).responseListeners = 1 := by
  simp only [getPageState] at hfresh
  rcases hb : dictGet? sid st.network_events with _ | b <;>
    simp [setup_network_listener, getPageState, hb, hfresh, dictGet?_insert_self]

/-- **C8.** Attaching listeners to the same page is idempotent: repeating
either setup call is a no-op, any number `n + 1` of setup calls on an
uninstrumented page registers exactly one console subscription and exactly
one request/response subscription pair, and a delivered console message
therefore appends exactly one log entry to the session's bucket. -/
theorem listener_attach_idempotent (sid ts : String) (pageH n : Nat)
    (msg : PwConsoleMsg) (st st2 : ServerState)
    (hfresh : getPageState pageH st = {}) :
    (setup_console_log_listener sid pageH (setup_console_log_listener sid pageH st2) =
        setup_console_log_listener sid pageH st2) ∧
    (setup_network_listener sid pageH (setup_network_listener sid pageH st2) =
        setup_network_listener sid pageH st2) ∧
    ((getPageState pageH ((setup_console_log_listener sid pageH)^[n + 1] st)).consoleListeners
        = 1) ∧
    ((getPageState pageH ((setup_network_listener sid pageH)^[n + 1] st)).requestListeners
        = 1) ∧
    ((getPageState pageH ((setup_network_listener sid pageH)^[n + 1] st)).responseListeners
        = 1) ∧
    (∀ logs,
      dictGet? sid (((setup_console_log_listener sid pageH)^[n + 1] st).console_logs)
          = some logs →
      dictGet? sid ((dispatchConsole ts msg sid pageH
          ((setup_console_log_listener sid pageH)^[n + 1] st)).console_logs)
        = some (logs ++
            [⟨msg.type, msg.text, msg.pageUrl, msg.lineNumber, msg.columnNumber, ts⟩])) := by
  refine ⟨setup_console_idem sid pageH st2, setup_network_idem sid pageH st2, ?_, ?_, ?_, ?_⟩
  · rw [iterate_setup_console]
    exact setup_console_count_fresh sid pageH st hfresh
  · rw [iterate_setup_network]
    exact (setup_network_count_fresh sid pageH st hfresh).1
  · rw [iterate_setup_network]
    exact (setup_network_count_fresh sid pageH st hfresh).2
  · intro logs hlogs
    have hcount : (getPageState pageH
        ((setup_console_log_listener sid pageH)^[n + 1] st)).consoleListeners = 1 := by
      rw [iterate_setup_console]
      exact setup_console_count_fresh sid pageH st hfresh
    simp only [dispatchConsole, hcount, Function.iterate_one]
    simp only [Function.iterate_succ_apply] at hlogs
    simp [deliverConsoleOnce, handle_console, hlogs, dictGet?_insert_self]

/-- Witness for C8: three setup calls on a fresh page in an empty server state
register a single console listener, and one delivered message yields exactly
one log entry. -/
theorem listener_attach_idempotent_witness :
    getPageState 7 ({} : ServerState) = {} ∧
    (getPageState 7 ((setup_console_log_listener "s1" 7)^[3] {})).consoleListeners = 1 := by
  constructor
  · rfl
  · exact (listener_attach_idempotent "s1" "t" 7 2 ⟨"log", "x", "u", none, none⟩
      {} {} rfl).2.2.1

/-! ## Tool handlers (server.py)

Handlers are functions from the driver environment, the tool arguments and the
server state to an `Except`: `.error` models a Python exception escaping the
handler to the protocol layer, `.ok` a normal return of content items.
Driver calls are supplied by an `Env` oracle, one field per `await`ed
driver operation, each an `Except` since any of them can raise. -/

theorem setup_console_sessions (sid : String) (pageH : Nat) (st : ServerState) :
    (setup_console_log_listener sid pageH st).sessions = st.sessions := by
  rcases hb : dictGet? sid st.console_logs with _ | b <;>
    by_cases hf : ((dictGet? pageH st.pages).getD ({} : PageState)).consoleListenerAdded <;>
    simp [setup_console_log_listener, getPageState, hb, hf]

theorem setup_network_sessions (sid : String) (pageH : Nat) (st : ServerState) :
    (setup_network_listener sid pageH st).sessions = st.sessions := by
  rcases hb : dictGet? sid st.network_events with _ | b <;>
    by_cases hf : ((dictGet? pageH st.pages).getD ({} : PageState)).networkListenerAdded <;>
    simp [setup_network_listener, getPageState, hb, hf]

theorem initialize_session_sessions (sid : String) (pageH : Nat) (st : ServerState) :
    (initialize_session sid pageH st).sessions = st.sessions := by
  simp [initialize_session, setup_network_sessions, setup_console_sessions]

/-- **C4.** On an empty session mapping every session-requiring tool returns
an ordinary textual "no session" response — never a protocol-level fault —
except `navigate`, which implicitly creates a session (the mapping afterwards
holds exactly the fresh session) and proceeds with the navigation, returning
its normal navigated message. -/
theorem no_session_is_plain_text (env : Env) (st : ServerState)
    (nm sel val scr txt : Option String) (cargs : Option ConsoleArgs)
    (nargs : Option NetworkArgs) (url : String) (browser page : Nat)
    (texts : List String)
    (hempty : st.sessions = [])
    (hstart : env.startResult = .ok ())
    (hlaunch : env.launchResult = .ok browser)
    (hpage : env.newPageResult = .ok page)
    (hgoto : env.gotoResult (normalizeUrl url) = .ok ())
    (htexts : env.uniqueTextsResult = .ok texts) :
    screenshot_handle env nm sel st = .ok ([.text noSessionText], st) ∧
    click_handle env sel st = .ok ([.text noSessionText], st) ∧
    click_text_handle env txt st = .ok ([.text noSessionText], st) ∧
    fill_handle env sel val st = .ok ([.text noSessionText], st) ∧
    evaluate_handle env scr st = .ok ([.text noSessionText], st) ∧
    get_text_content_handle env st = .ok ([.text noSessionText], st) ∧
    get_html_content_handle env sel st = .ok ([.text noSessionText], st) ∧
    console_logs_handle cargs st = .ok ([.text noActiveBrowserMsg], st) ∧
    network_activity_handle env nargs st = .ok ([.text noActiveBrowserMsg], st) ∧
    (∃ st',
      navigate_handle env (some url) st =
        .ok ([.text ("session_id=" ++ pyReprStr env.freshSessionId ++
          " Navigated to " ++ normalizeUrl url ++
          "\npage_text_content[:200]:\n\n" ++
          pyReprContentList (pySliceTo 200
            [.text ("Text content of all elements: " ++ pyReprStrList texts)]))],
          st') ∧
      st'.sessions = [(env.freshSessionId, ⟨browser, page⟩)]) := by
  have hisEmpty : st.sessions.isEmpty = true := by simp [hempty]
  refine ⟨?_, ?_, ?_, ?_, ?_, ?_, ?_, ?_, ?_, ?_⟩
  · simp [screenshot_handle, hisEmpty]
  · simp [click_handle, update_page_after_click, hisEmpty]
  · simp [click_text_handle, update_page_after_click, hisEmpty]
  · simp [fill_handle, hisEmpty]
  · simp [evaluate_handle, hisEmpty]
  · simp [get_text_content_handle, hisEmpty]
  · simp [get_html_content_handle, hisEmpty]
  · simp [console_logs_handle, get_active_session, hisEmpty, noActiveBrowserMsg]
  · simp [network_activity_handle, get_active_session, hisEmpty, noActiveBrowserMsg]
  · refine ⟨initialize_session env.freshSessionId page
      { st with sessions := [(env.freshSessionId, ⟨browser, page⟩)] }, ?_, ?_⟩
    · simp only [navigate_handle, new_session_handle, hisEmpty, hempty, hstart,
        hlaunch, hpage, strTruthy, dictInsert]
      have hsess : (initialize_session env.freshSessionId page
          { st with sessions := [(env.freshSessionId, ⟨browser, page⟩)] }).sessions
          = [(env.freshSessionId, ⟨browser, page⟩)] := by
        rw [initialize_session_sessions]
      simp [hsess, hgoto, get_text_content_handle, htexts]
    · rw [initialize_session_sessions]

/-- Witness for C4: the empty state really yields the plain text for
screenshot and a created session for navigate. -/
theorem no_session_is_plain_text_witness :
    (({} : ServerState).sessions = [] ∧
      sampleOkEnv.startResult = .ok () ∧
      sampleOkEnv.uniqueTextsResult = .ok ["hello"]) ∧
    screenshot_handle sampleOkEnv none none {} = .ok ([.text noSessionText], {}) :=
  ⟨⟨rfl, rfl, rfl⟩,
    (no_session_is_plain_text sampleOkEnv {} none none none none none none none
      "example.com" 11 12 ["hello"] rfl rfl rfl rfl rfl rfl).1⟩

/-- **C6 (amended).** Only the console-log and network-activity handlers
convert all failures in their top-level bodies to textual responses (their
results are normal returns for every environment, argument and state); the
remaining handlers and the dispatcher have no such guard, and there are tool
calls on which `handle_call_tool` surfaces an exception to the protocol
layer. -/
theorem tool_handler_error_conversion (env : Env) (cargs : Option ConsoleArgs)
    (nargs : Option NetworkArgs) (st : ServerState) :
    (∃ r, console_logs_handle cargs st = .ok r) ∧
    (∃ r, network_activity_handle env nargs st = .ok r) ∧
    (∃ env' args' st' e,
      handle_call_tool env' "playwright_evaluate" args' st' = .error e) := by
  refine ⟨?_, ?_, ?_⟩
  · unfold console_logs_handle
    rcases get_active_session st.sessions with msg | ⟨sid, sess⟩ <;> exact ⟨_, rfl⟩
  · unfold network_activity_handle
    rcases get_active_session st.sessions with msg | ⟨sid, sess⟩ <;> exact ⟨_, rfl⟩
  · exact ⟨sampleFailEnv, some { script := some "1/0" }, sampleOneSessionState,
      "ZeroDivisionError", rfl⟩

/-- **C6 counterexample.** "The calling protocol layer never observes an
exception from a tool call" is false: an evaluate call whose `page.evaluate`
raises propagates that exception through `EvaluateToolHandler.handle` and
`handle_call_tool`, which have no try/except. -/
theorem evaluate_failure_escapes_dispatcher :
    handle_call_tool sampleFailEnv "playwright_evaluate"
      (some { script := some "1/0" }) sampleOneSessionState =
      .error "ZeroDivisionError" := rfl

set_option maxRecDepth 10000

/-- **C9.** Navigate's "200-character truncation" is applied to the
one-element content **list** (`text_content[:200]`), not to the text, so the
whole 250-character page text appears verbatim in the returned message: the
result splits as `pre ++ sampleLongText ++ post` with the full untruncated
text in the middle. -/
theorem navigate_truncation_is_list_slice :
    navigate_handle sampleNavEnv (some "example.com") {} =
      .ok ([.text
        ("session_id='sid-1' Navigated to https://example.com\npage_text_content[:200]:\n\n[TextContent(type='text', text='Text content of all elements: ['"
          ++ sampleLongText ++ "']', annotations=None)]")], sampleNavState) ∧
    200 < sampleLongText.length := by
  constructor
  · rfl
  · decide

end PlaywrightServer
